import Mathlib

/-!
Shallow embedding of the metric-derivation logic of
`src/streamlit_dashboard.py` (a Streamlit KPI dashboard).

Modelling conventions:
* Python `datetime.date` becomes `Date` (year/month/day as integers).
* A pandas `Value` cell (`float`, possibly NaN) becomes `Option ℚ`:
  `none` models NaN, `some q` a defined value.  Exact rationals stand in
  for IEEE doubles; every arithmetic expression in the source is guarded
  so that no division with a zero denominator is ever evaluated.  This
  abstraction captures values, guards and control flow, but not the
  bit-level rounding of float64 accumulation, which depends on the
  summation scheme of the installed pandas/numpy version.
* A pandas frame of (Date, Value) rows becomes `List Entry`; the raw
  CSV-backed frame becomes `List Obs` (Shop, KPI, Date, Value).
* An uncaught Python exception escaping a helper is modelled by `none`
  in an `Option` result; the `try ... except: pass` block of
  `latest_metrics` is folded into its `yoy` expression.
-/

/-- A Python `datetime.date`. `datetime.date(y, m, d)` validates
`1 ≤ y ≤ 9999`, `1 ≤ m ≤ 12` and a valid day; the embedding keeps the
fields unconstrained and the one place that constructs a date
(`latest_metrics`'s YoY target) models the `ValueError` path explicitly. -/
@[ext]
structure Date where
  year : Int
  month : Int
  day : Int
deriving DecidableEq, Repr

/-- Chronological order on dates (lexicographic year, month, day). -/
def Date.le (a b : Date) : Prop :=
  a.year < b.year ∨ (a.year = b.year ∧
    (a.month < b.month ∨ (a.month = b.month ∧ a.day ≤ b.day)))

instance : DecidableRel Date.le := by
  intro a b
  unfold Date.le
  infer_instance

instance : IsTrans Date Date.le where
  trans a b c hab hbc := by
    rcases hab with h | ⟨h1, h | ⟨h2, h3⟩⟩ <;>
      rcases hbc with g | ⟨g1, g | ⟨g2, g3⟩⟩ <;>
      unfold Date.le <;> omega

instance : IsAntisymm Date Date.le where
  antisymm a b hab hba := by
    ext
    all_goals
      rcases hab with h | ⟨h1, h | ⟨h2, h3⟩⟩ <;>
        rcases hba with g | ⟨g1, g | ⟨g2, g3⟩⟩ <;> omega

instance : IsTotal Date Date.le where
  total a b := by
    unfold Date.le
    omega

/-- One raw row of the loaded CSV frame `df_raw` / `flt`:
columns `Shop`, `KPI`, `Date`, `Value` (nullable). -/
structure Obs where
  shop : String
  kpi : String
  date : Date
  value : Option ℚ
deriving DecidableEq, Repr

/-- One row of an aggregated month frame (`month_agg` output):
columns `Date`, `Value` (nullable). -/
structure Entry where
  date : Date
  value : Option ℚ
deriving DecidableEq, Repr

/-- The sidebar radio `Aggregation`: `"Average"` or `"Sum"`. -/
inductive Agg where
  | average
  | sum
deriving DecidableEq, Repr

/-- pandas `groupby("Date")["Value"].mean()` on one group: NaN values
are skipped from both the sum and the count; an all-NaN group yields
NaN (`none`), not absence and not zero.  The reduction is modelled in
exact rational arithmetic: the float64 accumulation order (and hence
any bit-level rounding difference between row orders) is not captured
here, so this definition supports value-level properties only, not
bit-identity claims about the float pipeline. -/
def meanReduce (vs : List (Option ℚ)) : Option ℚ :=
  let defined := vs.filterMap id
  if defined.length = 0 then none
  else some (defined.sum / (defined.length : ℚ))

/-- pandas `groupby("Date")["Value"].sum()` on one group: NaN values
are skipped; an all-NaN group sums to `0` (default `min_count=0`).
As with `meanReduce`, the sum is exact rational arithmetic, not the
order-sensitive float64 accumulation of the real kernel. -/
def sumReduce (vs : List (Option ℚ)) : Option ℚ :=
  some (vs.filterMap id).sum

/-- The group keys of `sub.groupby("Date")`, sorted ascending
(pandas `groupby` sorts keys; the trailing `.sort_values("Date")` of
`month_agg` is then a stable no-op). -/
def groupDates (sub : List Obs) : List Date :=
  List.insertionSort Date.le ((sub.map Obs.date).dedup)

/-- `month_agg(df, kpi)` of the source: filter to the KPI, group by
`Date`, reduce `Value` with mean or sum, sort ascending by `Date`. -/
def month_agg (df : List Obs) (method : Agg) (kpi : String) : List Entry :=
  let sub := df.filter (fun o => o.kpi == kpi)
  (groupDates sub).map (fun d =>
    let vs := (sub.filter (fun o => o.date == d)).map Obs.value
    { date := d
      value := match method with
               | Agg.average => meanReduce vs
               | Agg.sum => sumReduce vs })

/-- `mdf.dropna(subset=["Value"])`, keeping each row's date with its
(now known-defined) value. -/
def definedEntries (mdf : List Entry) : List (Date × ℚ) :=
  mdf.filterMap (fun e => e.value.map (fun v => (e.date, v)))

/-- The YoY reference date `datetime.date(latest.year - 1, latest.month, 1)`. -/
def tgtDate (d : Date) : Date :=
  { year := d.year - 1, month := d.month, day := 1 }

/-- `datetime.date(d.year - 1, d.month, 1)` raises `ValueError` exactly
when the target year or the month is out of range (the day `1` is always
valid); the bare `except` of `latest_metrics` turns that into NaN. -/
def tgtDateInvalid (d : Date) : Prop :=
  d.year - 1 < 1 ∨ 9999 < d.year - 1 ∨ d.month < 1 ∨ 12 < d.month

instance (d : Date) : Decidable (tgtDateInvalid d) := by
  unfold tgtDateInvalid
  infer_instance

/-- The MoM block of `latest_metrics` over the post-`dropna` rows `m`
and the latest value `vL`: `mom = np.nan; if len(mdf) >= 2: prev_val =
mdf.iloc[-2]["Value"]; mom = (latest_val - prev_val) / prev_val * 100
if prev_val else np.nan`.  `if prev_val` is Python float truthiness:
`0.0` falsy, every other (post-`dropna`, hence non-NaN) value truthy. -/
def momAux (m : List (Date × ℚ)) (vL : ℚ) : Option ℚ :=
  if 2 ≤ m.length then
    match m[m.length - 2]? with
    | some (_, pv) => if pv ≠ 0 then some ((vL - pv) / pv * 100) else none
    | none => none
  else none

/-- The YoY block of `latest_metrics`: `tgt = datetime.date(latest
["Date"].year - 1, latest["Date"].month, 1); yoy_val = mdf.loc[mdf
["Date"] == tgt, "Value"].iloc[0]; yoy = ... if yoy_val else np.nan`,
all inside `try ... except: pass` with `yoy` initialized to `np.nan`:
an invalid target date (`ValueError`) or an empty lookup (`IndexError`
from `.iloc[0]`) leaves `yoy` NaN. -/
def yoyAux (m : List (Date × ℚ)) (dL : Date) (vL : ℚ) : Option ℚ :=
  if tgtDateInvalid dL then none
  else
    match (m.filter (fun p => p.1 == tgtDate dL)).head? with
    | some (_, yv) => if yv ≠ 0 then some ((vL - yv) / yv * 100) else none
    | none => none

/-- `latest_metrics(mdf)` of the source, returning
`(latest_val, mom, yoy)`.  The outer `Option` models control flow:
`none` is the uncaught `IndexError` raised by `mdf.iloc[-1]` when the
frame is empty after `dropna` (that line is outside any `try`, so the
exception propagates to the caller). -/
def latest_metrics (mdf : List Entry) : Option (ℚ × Option ℚ × Option ℚ) :=
  let m := definedEntries mdf
  match m.getLast? with
  | none => none
  | some (dL, vL) => some (vL, momAux m vL, yoyAux m dL vL)

/-- The MoM component of a `latest_metrics` result. -/
def momOf (r : Option (ℚ × Option ℚ × Option ℚ)) : Option (Option ℚ) :=
  r.map (fun t => t.2.1)

/-- The YoY component of a `latest_metrics` result. -/
def yoyOf (r : Option (ℚ × Option ℚ × Option ℚ)) : Option (Option ℚ) :=
  r.map (fun t => t.2.2)

/-- Python float truthiness as used by `if base` / `if prev_val`:
`0.0` is falsy; every other float, NaN included, is truthy. -/
def truthy (v : Option ℚ) : Bool :=
  match v with
  | none => true
  | some q => q != 0

/-- pandas element-wise division `x / base` of a `Value` cell by the
scalar `base`: NaN on either side propagates to NaN.  (When `base` is a
defined zero the guard `if base` in the source prevents this from ever
being evaluated; pandas itself would produce `inf`.) -/
def divOpt (a b : Option ℚ) : Option ℚ :=
  match a, b with
  | some x, some y => some (x / y)
  | _, _ => none

/-- The overlay-normalization block of the source (run when the
`Normalize overlay lines` checkbox is on and `mdf` is non-empty):
`base = mdf.iloc[0]["Value"]; mdf["Value"] = mdf["Value"] / base * 100
if base else mdf["Value"]`.  The empty case returns the frame untouched
because the block is guarded by `not mdf.empty`. -/
def normalizeSeries (mdf : List Entry) : List Entry :=
  match mdf with
  | [] => []
  | e0 :: _ =>
    if truthy e0.value then
      mdf.map (fun e => { date := e.date, value := (divOpt e.value e0.value).map (· * 100) })
    else mdf

/-- Python `f"{x:+.1f}"` on a float that is either NaN (`none`) or an
exact multiple of one tenth (`some q`): NaN formats as `"+nan"`; a
number formats with a forced sign and one decimal digit.  (On a general
float Python rounds half-to-even to one decimal; the inputs this file
formats are handled exactly by `round`, which only differs on ties.) -/
def fmtPlus1f (v : Option ℚ) : String :=
  match v with
  | none => "+nan"
  | some q =>
    let n : Int := round (q * 10)
    (if n < 0 then "-" else "+") ++ toString (n.natAbs / 10) ++ "." ++ toString (n.natAbs % 10)

/-- The MoM delta text of one scorecard:
`f"{mom:+.1f}% MoM"` from the source's markdown span. -/
def render_mom (mom : Option ℚ) : String :=
  fmtPlus1f mom ++ "% MoM"

/-- One iteration of the scorecard loop for a KPI:
`mdf = month_agg(flt, kpi); if mdf.empty: continue;
val, mom, _ = latest_metrics(mdf); ...render...`.
`none` models an uncaught exception escaping the loop iteration and
crashing the script run; `some none` models the `continue` (cell
skipped); `some (some s)` models a rendered cell whose MoM span is `s`. -/
def scorecard_cell (flt : List Obs) (method : Agg) (kpi : String) : Option (Option String) :=
  let mdf := month_agg flt method kpi
  if mdf.isEmpty then some none
  else
    match latest_metrics mdf with
    | none => none
    | some (_, mom, _) => some (some (render_mom mom))

/-- The names bound at module level in `streamlit_dashboard.py`, in
source order: the imports, then every module-scope assignment target,
`def` name and `for`-loop target.  (Function parameters and names local
to `load_data`, `month_agg`, `latest_metrics` are not module-level.) -/
def script_module_names : List String :=
  ["datetime", "Path", "alt", "np", "pd", "st",
   "load_data", "DATA_PATH", "df_raw",
   "all_shops", "shop_selector_options", "shop_choice", "shops_sel", "systemwide",
   "all_kpis", "primary_kpi", "compare_kpis",
   "min_dt", "max_dt", "start_dt", "end_dt",
   "agg_method", "agg_func", "normalize_toggle", "promo_toggle",
   "flt",
   "month_agg", "latest_metrics",
   "score_kpis", "c1", "c2", "c3", "c4", "kpi", "col", "mdf", "val", "mom",
   "delta_color", "spark",
   "sel_kpis", "long_data", "k", "base", "overlay_df",
   "color_scale", "line", "layers", "band",
   "primary_df", "momdf", "grad", "bar"]

example : month_agg [⟨"A", "k", ⟨2023, 1, 1⟩, none⟩] Agg.average "k"
    = [⟨⟨2023, 1, 1⟩, none⟩] := by
  simp [month_agg, groupDates, meanReduce, List.insertionSort, List.orderedInsert, List.dedup]

example : month_agg [⟨"A", "k", ⟨2023, 1, 1⟩, some 4⟩, ⟨"B", "k", ⟨2023, 1, 1⟩, some 6⟩]
    Agg.average "k" = [⟨⟨2023, 1, 1⟩, some 5⟩] := by
  simp [month_agg, groupDates, meanReduce, List.insertionSort, List.orderedInsert, List.dedup]
  norm_num

example : latest_metrics [⟨⟨2023, 1, 1⟩, some 100⟩, ⟨⟨2023, 3, 1⟩, some 150⟩]
    = some (150, some 50, none) := by
  simp [latest_metrics, definedEntries, momAux, yoyAux, tgtDateInvalid, tgtDate]
  norm_num

/-! ### Structural lemmas about `latest_metrics` -/

lemma latest_metrics_of_getLast (mdf : List Entry) (dL : Date) (vL : ℚ)
    (h : (definedEntries mdf).getLast? = some (dL, vL)) :
    latest_metrics mdf =
      some (vL, momAux (definedEntries mdf) vL, yoyAux (definedEntries mdf) dL vL) := by
  simp only [latest_metrics]
  rw [h]

lemma momAux_append (pre : List (Date × ℚ)) (dP dL : Date) (vP vL : ℚ) :
    momAux (pre ++ [(dP, vP), (dL, vL)]) vL =
      if vP ≠ 0 then some ((vL - vP) / vP * 100) else none := by
  unfold momAux
  have hlen : (pre ++ [(dP, vP), (dL, vL)]).length = pre.length + 2 := by simp
  have h2 : 2 ≤ (pre ++ [(dP, vP), (dL, vL)]).length := by simp
  rw [if_pos h2, hlen]
  have hidx : pre.length + 2 - 2 = pre.length := by omega
  rw [hidx, List.getElem?_append_right (Nat.le_refl pre.length)]
  simp

/-- C3: the MoM delta of `latest_metrics` compares the latest defined
entry against the defined entry immediately preceding it within the
series (the nearest earlier present month, whatever its calendar date),
and is undefined when no earlier defined entry exists. -/
theorem mom_ref_is_nearest_defined_prev :
    (∀ (mdf : List Entry) (pre : List (Date × ℚ)) (dP dL : Date) (vP vL : ℚ),
      definedEntries mdf = pre ++ [(dP, vP), (dL, vL)] → vP ≠ 0 →
      momOf (latest_metrics mdf) = some (some ((vL - vP) / vP * 100))) ∧
    (∀ (mdf : List Entry) (dL : Date) (vL : ℚ),
      definedEntries mdf = [(dL, vL)] →
      momOf (latest_metrics mdf) = some none) := by
  constructor
  · intro mdf pre dP dL vP vL hm hvP
    have hlast : (definedEntries mdf).getLast? = some (dL, vL) := by
      rw [hm]; simp
    rw [latest_metrics_of_getLast mdf dL vL hlast]
    simp only [momOf, Option.map_some]
    rw [hm, momAux_append, if_pos hvP]
    rfl
  · intro mdf dL vL hm
    have hlast : (definedEntries mdf).getLast? = some (dL, vL) := by
      rw [hm]; rfl
    rw [latest_metrics_of_getLast mdf dL vL hlast]
    simp [momOf, momAux, hm]

/-- C3 witness: for the series `[(Jan 2023, 100), (Mar 2023, 150)]`
(Feb missing) the MoM delta is `+50%`, with Jan as reference. -/
theorem mom_ref_is_nearest_defined_prev_witness :
    momOf (latest_metrics [⟨⟨2023, 1, 1⟩, some 100⟩, ⟨⟨2023, 3, 1⟩, some 150⟩])
      = some (some 50) := by
  have h := mom_ref_is_nearest_defined_prev.1
    [⟨⟨2023, 1, 1⟩, some 100⟩, ⟨⟨2023, 3, 1⟩, some 150⟩]
    [] ⟨2023, 1, 1⟩ ⟨2023, 3, 1⟩ 100 150 rfl (by norm_num)
  rw [h]
  norm_num

/-- C5: whenever the MoM reference (the defined entry immediately before
the latest) or the YoY reference (the calendar-exact lookup hit) has
value exactly `0`, the corresponding percent delta is the undefined
sentinel, never an evaluated division by zero. -/
theorem zero_reference_delta_undefined :
    (∀ (mdf : List Entry) (pre : List (Date × ℚ)) (dP dL : Date) (vL : ℚ),
      definedEntries mdf = pre ++ [(dP, 0), (dL, vL)] →
      momOf (latest_metrics mdf) = some none) ∧
    (∀ (mdf : List Entry) (dL d' : Date) (vL : ℚ),
      (definedEntries mdf).getLast? = some (dL, vL) →
      ((definedEntries mdf).filter (fun p => p.1 == tgtDate dL)).head? = some (d', 0) →
      yoyOf (latest_metrics mdf) = some none) := by
  constructor
  · intro mdf pre dP dL vL hm
    have hlast : (definedEntries mdf).getLast? = some (dL, vL) := by
      rw [hm]; simp
    rw [latest_metrics_of_getLast mdf dL vL hlast]
    simp only [momOf, Option.map_some]
    rw [hm, momAux_append]
    simp
  · intro mdf dL d' vL hlast hlook
    rw [latest_metrics_of_getLast mdf dL vL hlast]
    simp only [yoyOf, Option.map_some]
    by_cases hinv : tgtDateInvalid dL
    · simp [yoyAux, hinv]
    · simp [yoyAux, hinv, hlook]

/-- C5 witness: for the series `[(Jan, 0), (Feb, 50)]` the MoM delta is
the undefined sentinel, not infinity or an error. -/
theorem zero_reference_delta_undefined_witness :
    momOf (latest_metrics [⟨⟨2023, 1, 1⟩, some 0⟩, ⟨⟨2023, 2, 1⟩, some 50⟩])
      = some none :=
  zero_reference_delta_undefined.1
    [⟨⟨2023, 1, 1⟩, some 0⟩, ⟨⟨2023, 2, 1⟩, some 50⟩]
    [] ⟨2023, 1, 1⟩ ⟨2023, 2, 1⟩ 50 rfl

/-- C4: the YoY delta of `latest_metrics` is computed against the entry
whose date is exactly the explicitly constructed
`(latest.year - 1, latest.month, 1)`; when no defined entry carries
that exact date the YoY delta is the undefined sentinel, whatever other
earlier entries exist. -/
theorem yoy_exact_calendar_lookup :
    (∀ (mdf : List Entry) (dL d' : Date) (vL yv : ℚ),
      (definedEntries mdf).getLast? = some (dL, vL) →
      ¬ tgtDateInvalid dL →
      ((definedEntries mdf).filter (fun p => p.1 == tgtDate dL)).head? = some (d', yv) →
      yv ≠ 0 →
      yoyOf (latest_metrics mdf) = some (some ((vL - yv) / yv * 100))) ∧
    (∀ (mdf : List Entry) (dL : Date) (vL : ℚ),
      (definedEntries mdf).getLast? = some (dL, vL) →
      (∀ p ∈ definedEntries mdf, p.1 ≠ tgtDate dL) →
      yoyOf (latest_metrics mdf) = some none) := by
  constructor
  · intro mdf dL d' vL yv hlast hinv hlook hyv
    rw [latest_metrics_of_getLast mdf dL vL hlast]
    simp only [yoyOf, Option.map_some]
    rw [yoyAux, if_neg hinv, hlook]
    simp [hyv]
  · intro mdf dL vL hlast hmiss
    rw [latest_metrics_of_getLast mdf dL vL hlast]
    simp only [yoyOf, Option.map_some]
    have hfil : (definedEntries mdf).filter (fun p => p.1 == tgtDate dL) = [] := by
      rw [List.filter_eq_nil_iff]
      intro p hp
      simpa using hmiss p hp
    by_cases hinv : tgtDateInvalid dL
    · simp [yoyAux, hinv]
    · simp [yoyAux, hinv, hfil]

/-- C4 witness: for the series `[(Jan 2023, 100), (Feb 2024, 110)]` the
YoY delta is the undefined sentinel (no Feb 2023 entry), even though a
Jan 2023 entry exists. -/
theorem yoy_exact_calendar_lookup_witness :
    yoyOf (latest_metrics [⟨⟨2023, 1, 1⟩, some 100⟩, ⟨⟨2024, 2, 1⟩, some 110⟩])
      = some none := by
  exact yoy_exact_calendar_lookup.2
    [⟨⟨2023, 1, 1⟩, some 100⟩, ⟨⟨2024, 2, 1⟩, some 110⟩]
    ⟨2024, 2, 1⟩ 110 rfl (by decide)

/-- C8: overlay normalization with a defined non-zero first value
rescales every value to `value * 100 / value[0]` (undefined values stay
undefined), making the first entry exactly `100`; an empty series or a
zero first value passes through unchanged. -/
theorem normalize_rebase_first_to_100 :
    (∀ (mdf : List Entry) (d0 : Date) (v0 : ℚ),
      mdf.head? = some ⟨d0, some v0⟩ → v0 ≠ 0 →
      normalizeSeries mdf
          = mdf.map (fun e => ⟨e.date, e.value.map (fun v => v * 100 / v0)⟩) ∧
        (normalizeSeries mdf).head? = some ⟨d0, some 100⟩) ∧
    normalizeSeries [] = [] ∧
    (∀ (mdf : List Entry) (d0 : Date),
      mdf.head? = some ⟨d0, some 0⟩ → normalizeSeries mdf = mdf) := by
  refine ⟨?_, rfl, ?_⟩
  · intro mdf d0 v0 hh hv0
    cases mdf with
    | nil => simp at hh
    | cons e0 rest =>
      have he0 : e0 = ⟨d0, some v0⟩ := by simpa using hh
      subst he0
      have htr : truthy (some v0) = true := by
        simp [truthy, hv0]
      have hfun : (fun e : Entry =>
            ({ date := e.date, value := (divOpt e.value (some v0)).map (· * 100) } : Entry))
          = fun e : Entry => ({ date := e.date, value := e.value.map (fun v => v * 100 / v0) } : Entry) := by
        funext e
        cases e.value with
        | none => simp [divOpt]
        | some v =>
          simp only [divOpt, Option.map_some']
          congr 1
          rw [div_mul_eq_mul_div]
      have hmain : normalizeSeries (⟨d0, some v0⟩ :: rest)
          = (⟨d0, some v0⟩ :: rest).map
              (fun e => ⟨e.date, e.value.map (fun v => v * 100 / v0)⟩) := by
        simp only [normalizeSeries, htr, if_true]
        rw [hfun]
      refine ⟨hmain, ?_⟩
      rw [hmain]
      simp only [List.map_cons, List.head?_cons, Option.map_some']
      have : v0 * 100 / v0 = 100 := by
        rw [mul_comm, mul_div_assoc, div_self hv0, mul_one]
      rw [this]
  · intro mdf d0 hh
    cases mdf with
    | nil => simp at hh
    | cons e0 rest =>
      have he0 : e0 = ⟨d0, some 0⟩ := by simpa using hh
      subst he0
      simp [normalizeSeries, truthy]

/-- C8 witness: `[(Jan, 50), (Feb, NaN), (Mar, 75)]` normalized starts
at exactly `100`. -/
theorem normalize_rebase_first_to_100_witness :
    (normalizeSeries [⟨⟨2023, 1, 1⟩, some 50⟩, ⟨⟨2023, 2, 1⟩, none⟩, ⟨⟨2023, 3, 1⟩, some 75⟩]).head?
      = some ⟨⟨2023, 1, 1⟩, some 100⟩ :=
  (normalize_rebase_first_to_100.1
    [⟨⟨2023, 1, 1⟩, some 50⟩, ⟨⟨2023, 2, 1⟩, none⟩, ⟨⟨2023, 3, 1⟩, some 75⟩]
    ⟨2023, 1, 1⟩ 50 rfl (by norm_num)).2

/-- C10: when the first entry's value is undefined (NaN), the NaN base
is truthy, every value is divided by it, and the whole output series is
undefined — not a pass-through. -/
theorem normalize_undefined_base_poisons_series :
    ∀ (mdf : List Entry) (d0 : Date),
      mdf.head? = some ⟨d0, none⟩ →
      normalizeSeries mdf = mdf.map (fun e => ⟨e.date, none⟩) := by
  intro mdf d0 hh
  cases mdf with
  | nil => simp at hh
  | cons e0 rest =>
    have he0 : e0 = ⟨d0, none⟩ := by simpa using hh
    subst he0
    have hfun : (fun e : Entry =>
          ({ date := e.date, value := (divOpt e.value none).map (· * 100) } : Entry))
        = fun e : Entry => ({ date := e.date, value := none } : Entry) := by
      funext e
      cases e.value with
      | none => simp [divOpt]
      | some v => simp [divOpt]
    simp only [normalizeSeries, truthy, if_true]
    rw [hfun]

/-- C10 witness: `[(Jan, NaN), (Feb, 50)]` normalizes to an
all-undefined series, not to itself. -/
theorem normalize_undefined_base_poisons_series_witness :
    normalizeSeries [⟨⟨2023, 1, 1⟩, none⟩, ⟨⟨2023, 2, 1⟩, some 50⟩]
        = [⟨⟨2023, 1, 1⟩, none⟩, ⟨⟨2023, 2, 1⟩, none⟩] ∧
      normalizeSeries [⟨⟨2023, 1, 1⟩, none⟩, ⟨⟨2023, 2, 1⟩, some 50⟩]
        ≠ [⟨⟨2023, 1, 1⟩, none⟩, ⟨⟨2023, 2, 1⟩, some 50⟩] := by
  have h := normalize_undefined_base_poisons_series
    [⟨⟨2023, 1, 1⟩, none⟩, ⟨⟨2023, 2, 1⟩, some 50⟩] ⟨2023, 1, 1⟩ rfl
  rw [h]
  refine ⟨rfl, ?_⟩
  decide

/-! ### Membership in the aggregated series -/

lemma mem_month_agg_average (df : List Obs) (kpi : String) (d : Date)
    (hd : ∃ o ∈ df, o.kpi = kpi ∧ o.date = d) :
    (⟨d, meanReduce (((df.filter (fun o => o.kpi == kpi)).filter
        (fun o => o.date == d)).map Obs.value)⟩ : Entry)
      ∈ month_agg df Agg.average kpi := by
  obtain ⟨o, ho, hk, hdt⟩ := hd
  have hsub : o ∈ df.filter (fun o => o.kpi == kpi) := by
    rw [List.mem_filter]
    exact ⟨ho, by simp [hk]⟩
  have hdm : d ∈ (df.filter (fun o => o.kpi == kpi)).map Obs.date :=
    List.mem_map.mpr ⟨o, hsub, hdt⟩
  have hdg : d ∈ groupDates (df.filter (fun o => o.kpi == kpi)) := by
    unfold groupDates
    rw [(List.perm_insertionSort _ _).mem_iff, List.mem_dedup]
    exact hdm
  unfold month_agg
  exact List.mem_map.mpr ⟨d, hdg, rfl⟩

/-- C2 (amended): with the `Average` reducer, a month group's entry
excludes undefined observations from both the sum and the count — its
value is `sum of defined / number of defined`; and a month whose
observations are all undefined still appears in the output, as an entry
with the undefined value (NaN), neither absent nor zero. -/
theorem mean_agg_excludes_undefined :
    (∀ (df : List Obs) (kpi : String) (d : Date) (vs : List ℚ),
      (df.filter (fun o => o.date == d && o.kpi == kpi)).filterMap Obs.value = vs →
      vs ≠ [] →
      (⟨d, some (vs.sum / (vs.length : ℚ))⟩ : Entry) ∈ month_agg df Agg.average kpi) ∧
    (∀ (df : List Obs) (kpi : String) (d : Date),
      (∃ o ∈ df, o.kpi = kpi ∧ o.date = d) →
      (∀ o ∈ df, o.kpi = kpi → o.date = d → o.value = none) →
      (⟨d, none⟩ : Entry) ∈ month_agg df Agg.average kpi) := by
  constructor
  · intro df kpi d vs hvs hne
    have hl : df.filter (fun o => o.date == d && o.kpi == kpi) ≠ [] := by
      intro h0
      rw [h0] at hvs
      simp only [List.filterMap_nil] at hvs
      exact hne hvs.symm
    obtain ⟨o, ho⟩ := List.exists_mem_of_ne_nil _ hl
    have ho' := List.mem_filter.mp ho
    have hok : o.date = d ∧ o.kpi = kpi := by
      have h2 := ho'.2
      simp only [Bool.and_eq_true, beq_iff_eq] at h2
      exact h2
    have hmem := mem_month_agg_average df kpi d ⟨o, ho'.1, hok.2, hok.1⟩
    have hv : meanReduce (((df.filter (fun o => o.kpi == kpi)).filter
        (fun o => o.date == d)).map Obs.value) = some (vs.sum / (vs.length : ℚ)) := by
      unfold meanReduce
      rw [List.filter_filter, List.filterMap_map]
      have hco : (id ∘ Obs.value) = Obs.value := rfl
      rw [hco, hvs]
      have : vs.length ≠ 0 := by
        simpa [List.length_eq_zero] using hne
      simp [this]
    rw [hv] at hmem
    exact hmem
  · intro df kpi d hd hall
    have hmem := mem_month_agg_average df kpi d hd
    have hv : meanReduce (((df.filter (fun o => o.kpi == kpi)).filter
        (fun o => o.date == d)).map Obs.value) = none := by
      unfold meanReduce
      rw [List.filter_filter, List.filterMap_map]
      have hco : (id ∘ Obs.value) = Obs.value := rfl
      rw [hco]
      have hnil : (df.filter (fun o => (o.date == d) && (o.kpi == kpi))).filterMap Obs.value = [] := by
        rw [List.filterMap_eq_nil_iff]
        intro o ho
        have ho' := List.mem_filter.mp ho
        have h2 := ho'.2
        simp only [Bool.and_eq_true, beq_iff_eq] at h2
        exact hall o ho'.1 h2.2 h2.1
      rw [hnil]
      simp
    rw [hv] at hmem
    exact hmem

/-- C2 counterexample to the claim as stated: a month whose only
observation is undefined does NOT vanish from the aggregate — the
output contains an entry for that month, carrying the undefined value. -/
theorem mean_agg_all_undefined_counterexample :
    month_agg [⟨"A", "k", ⟨2023, 1, 1⟩, none⟩] Agg.average "k"
        = [⟨⟨2023, 1, 1⟩, none⟩] ∧
      month_agg [⟨"A", "k", ⟨2023, 1, 1⟩, none⟩] Agg.average "k" ≠ [] := by
  decide

/-- C2 witness: a January with defined values `4`, `6` and one
undefined observation aggregates (under `Average`) to `5`: the
undefined row counts neither toward the sum nor toward the count. -/
theorem mean_agg_excludes_undefined_witness :
    (⟨⟨2023, 1, 1⟩, some 5⟩ : Entry) ∈
      month_agg [⟨"A", "k", ⟨2023, 1, 1⟩, some 4⟩, ⟨"B", "k", ⟨2023, 1, 1⟩, none⟩,
        ⟨"C", "k", ⟨2023, 1, 1⟩, some 6⟩] Agg.average "k" := by
  have h := mean_agg_excludes_undefined.1
    [⟨"A", "k", ⟨2023, 1, 1⟩, some 4⟩, ⟨"B", "k", ⟨2023, 1, 1⟩, none⟩,
      ⟨"C", "k", ⟨2023, 1, 1⟩, some 6⟩]
    "k" ⟨2023, 1, 1⟩ [4, 6] rfl (by simp)
  have he : ([4, 6] : List ℚ).sum / (([4, 6] : List ℚ).length : ℚ) = 5 := by
    norm_num
  rw [he] at h
  exact h

/-- C1 (amended): on a series with zero defined entries the post-
`dropna` frame is empty and `mdf.iloc[-1]` raises an uncaught
`IndexError` (modelled by the `none` result); the scorecard loop guards
only against an empty aggregated frame, so an aggregated series that is
non-empty but all-undefined crashes the loop iteration instead of being
handled as a recoverable empty-series condition. -/
theorem empty_defined_series_uncaught_error :
    (∀ mdf : List Entry, definedEntries mdf = [] → latest_metrics mdf = none) ∧
    (∀ (flt : List Obs) (method : Agg) (kpi : String),
      month_agg flt method kpi ≠ [] →
      definedEntries (month_agg flt method kpi) = [] →
      scorecard_cell flt method kpi = none) := by
  have h1 : ∀ mdf : List Entry, definedEntries mdf = [] → latest_metrics mdf = none := by
    intro mdf h
    simp only [latest_metrics]
    rw [h]
    rfl
  refine ⟨h1, ?_⟩
  intro flt method kpi hne hdef
  simp only [scorecard_cell]
  rw [List.isEmpty_eq_false.mpr hne, h1 _ hdef]
  rfl

/-- C1 witness: a dataset whose single `net_revenue` row has an
undefined value yields (under `Average`) a non-empty aggregated series
with zero defined entries, and the scorecard iteration crashes. -/
theorem empty_defined_series_uncaught_error_witness :
    scorecard_cell [⟨"A", "net_revenue", ⟨2023, 1, 1⟩, none⟩] Agg.average "net_revenue"
      = none :=
  empty_defined_series_uncaught_error.2
    [⟨"A", "net_revenue", ⟨2023, 1, 1⟩, none⟩] Agg.average "net_revenue"
    (by decide) (by decide)

/-- C1 counterexample to the claim as stated: at this concrete input
the aggregated frame is non-empty, `latest_metrics` is reached, and the
loop iteration ends in the uncaught-exception state (`none`) — the
empty-series condition is not handled at the point of computation. -/
theorem scorecard_crash_counterexample :
    scorecard_cell [⟨"B", "net_revenue", ⟨2024, 5, 1⟩, none⟩] Agg.average "net_revenue"
        = none ∧
      month_agg [⟨"B", "net_revenue", ⟨2024, 5, 1⟩, none⟩] Agg.average "net_revenue" ≠ [] := by
  decide

/-- C6 (code bug): line 232 reads `st.download_button(..., data=
filt.to_csv(index=False).encode(), ...)`, but no module-level binding
of the script is named `filt` — the filtered frame is bound as `flt` —
so reaching the download line raises `NameError` and the export never
succeeds, let alone round-trips. -/
theorem download_name_filt_unbound :
    "filt" ∉ script_module_names ∧ "flt" ∈ script_module_names := by
  decide

/-- C7 counterexample to the claim as stated: with a single defined
month the MoM delta is the undefined sentinel, and the scorecard span
renders it as the literal text `"+nan% MoM"` (Python's `f"{nan:+.1f}"`),
not as an em-dash placeholder. -/
theorem undefined_mom_not_em_dash :
    scorecard_cell [⟨"A", "k", ⟨2023, 1, 1⟩, some 5⟩] Agg.average "k"
        = some (some "+nan% MoM") ∧
      "+nan% MoM" ≠ "—% MoM" ∧ "+nan% MoM" ≠ "—" := by
  refine ⟨?_, by decide, by decide⟩
  have hm : month_agg [⟨"A", "k", ⟨2023, 1, 1⟩, some 5⟩] Agg.average "k"
      = [⟨⟨2023, 1, 1⟩, some 5⟩] := by
    simp [month_agg, groupDates, meanReduce, List.insertionSort, List.orderedInsert,
      List.dedup]
  simp only [scorecard_cell]
  rw [hm]
  decide

/-- C7 (amended): the undefined MoM/YoY sentinel (NaN) is representable
distinctly from `0` and renders as `"+nan% MoM"` — distinct from the
rendering of a zero delta, so it is never coerced to `0.0%`; but it is
a NaN formatting artifact, not an em-dash placeholder. -/
theorem undefined_mom_renders_nan :
    render_mom none = "+nan% MoM" ∧
    (none : Option ℚ) ≠ some 0 ∧
    render_mom none ≠ render_mom (some 0) := by
  refine ⟨rfl, by decide, ?_⟩
  have h : render_mom (some 0) = "+0.0% MoM" := by
    simp [render_mom, fmtPlus1f]
    rfl
  rw [h]
  decide
